import Mathlib

/-!
Verification of the windows-debugger repository against its specification.

The repository implements a loopback REPL debugger three times over: the
reference JavaScript entry point (src/index.js), a TypeScript port
(src/src/index.ts) and a C# port (src/src/*.cs).  The definitions below are
shallow embeddings of the functions those sources define: evaluation of one
input line, the per-connection read-eval-print loop, the single-shot
authentication handshake, output formatting, PowerShell title escaping,
listener shutdown, and option defaulting.
-/

/-- Embeds the trimming primitive used throughout the sources: JavaScript
String.prototype.trim and .NET String.Trim both strip whitespace from both
ends of the string.  Modelled character-wise so that it evaluates. -/
def trimChars (l : List Char) : List Char :=
  ((l.dropWhile Char.isWhitespace).reverse.dropWhile Char.isWhitespace).reverse

/-- String-level trim, the form the sources apply to incoming data. -/
def jsTrim (s : String) : String := ⟨trimChars s.toList⟩

/-- A runtime value handled by the debugger: the JavaScript undefined value,
the null value, a string, or any other object carrying the optional result of
its textual serialization (C# ToString may return null, hence the Option). -/
inductive Value where
  | undef
  | nullv
  | str (s : String)
  | other (ts : Option String)
deriving DecidableEq, Repr

/-- A configured evaluator: maps one raw input line to a result value, or
fails with an exception carrying a message. -/
abbrev EvalFn := String → Except String Value

/-- Embeds InternalOptions from src/src/index.ts lines 22 to 26 and the C#
InternalOptions record: the configuration after defaults are applied. -/
structure InternalOptions where
  title : String
  default : Value
  eval : EvalFn

/-- Embeds FormatOutput from src/src/ReplServerManager.cs lines 107 to 116:
null maps to the literal "null", a string is returned verbatim, any other
object is rendered by ToString with "null" as the fallback when ToString
itself returns null.  The absent value is marshalled like null. -/
def FormatOutput : Value → String
  | Value.undef => "null"
  | Value.nullv => "null"
  | Value.str s => s
  | Value.other ts => ts.getD "null"

/-- Embeds createEvalFunction from src/src/index.ts lines 104 to 114, which is
identical to the eval option passed to repl.start in src/index.js lines 22 to
28: trim the command; a non-empty trimmed command invokes the configured
evaluator on the original untrimmed command, an empty one yields the
configured default; an evaluator failure is caught by the surrounding
try/catch and becomes an error result carrying the message. -/
def createEvalFunction (opts : InternalOptions) (command : String) : Except String Value :=
  if jsTrim command = "" then Except.ok opts.default
  else opts.eval command

/-- The same evaluation step with the argument list of every invocation of the
configured evaluator recorded, mirroring the single call site
this.options.eval(command) of the source, so that invocation-count properties
can be stated. -/
def createEvalFunctionTr (opts : InternalOptions) (command : String) :
    Except String Value × List String :=
  if jsTrim command = "" then (Except.ok opts.default, [])
  else (opts.eval command, [command])

/-- The prompt marker written whenever the server is ready for input, the
prompt option of repl.start in both ports and the literal written by the C#
loop. -/
def promptMarker : String := "> "

/-- Embeds the body of the while loop of HandleClientAsync in
src/src/ReplServerManager.cs lines 76 to 101: trim the line; a blank line
yields the configured default, otherwise the configured evaluator runs on the
original line; the result is rendered by FormatOutput; any exception is caught
and written as an error line carrying its message. -/
def handleLine (opts : InternalOptions) (line : String) : String :=
  match (if jsTrim line = "" then Except.ok opts.default else opts.eval line) with
  | Except.ok result => FormatOutput result
  | Except.error ex => "Error: " ++ ex

/-- Embeds the read-eval-print loop of HandleClientAsync: each received line
produces its output line followed by the prompt marker, and the loop continues
with the remaining lines. -/
def clientLoop (opts : InternalOptions) : List String → List String
  | [] => []
  | l :: ls => handleLine opts l :: promptMarker :: clientLoop opts ls

/-- Embeds HandleClientAsync in full: the banner and first prompt written on
connect, then the loop over the received lines. -/
def handleClient (opts : InternalOptions) (lines : List String) : List String :=
  "C# Windows Debugger REPL" :: promptMarker :: clientLoop opts lines

/-- Consistency of the instrumented evaluation step with the plain one. -/
theorem createEvalFunctionTr_fst (opts : InternalOptions) (command : String) :
    (createEvalFunctionTr opts command).fst = createEvalFunction opts command := by
  unfold createEvalFunctionTr createEvalFunction
  split <;> rfl

/-- C1: an evaluator failure on an active session is caught at the
line-processing boundary and becomes an error output carrying the failure
message; it does not propagate, the session does not close, and every
subsequent line is processed exactly as it would be on its own. -/
theorem evaluator_failure_isolated (opts : InternalOptions) (line msg : String)
    (rest : List String)
    (hnb : jsTrim line ≠ "") (herr : opts.eval line = Except.error msg) :
    clientLoop opts (line :: rest) =
      ("Error: " ++ msg) :: promptMarker :: clientLoop opts rest ∧
    ∀ l2 ls, clientLoop opts (line :: l2 :: ls) =
      ("Error: " ++ msg) :: promptMarker ::
        handleLine opts l2 :: promptMarker :: clientLoop opts ls := by
  constructor
  · simp [clientLoop, handleLine, hnb, herr]
  · intro l2 ls
    simp [clientLoop, handleLine, hnb, herr]

/-- Concrete run of C1: the evaluator throws on "bad", the session reports the
error and then evaluates "2+2" normally. -/
def failingOpts : InternalOptions :=
  ⟨"Windows Debugger", Value.undef,
    fun s => if s = "bad" then Except.error "boom" else Except.ok (Value.str "4")⟩

theorem evaluator_failure_isolated_witness :
    clientLoop failingOpts ["bad", "2+2"] = ["Error: boom", "> ", "4", "> "] := by
  have h := evaluator_failure_isolated failingOpts "bad" "boom" ["2+2"]
    (by decide) (by rfl)
  rw [h.1]
  rfl

/-- C2: a blank line returns the configured default value and the configured
evaluator is never invoked for that line: the recorded invocation list is
empty and the session writes the formatted default. -/
theorem blank_line_returns_default (opts : InternalOptions) (line : String)
    (rest : List String) (hblank : jsTrim line = "") :
    createEvalFunctionTr opts line = (Except.ok opts.default, []) ∧
    clientLoop opts (line :: rest) =
      FormatOutput opts.default :: promptMarker :: clientLoop opts rest := by
  constructor
  · simp [createEvalFunctionTr, hblank]
  · simp [clientLoop, handleLine, hblank]

/-- Concrete run of C2: default "ready", input three spaces, output "ready",
no evaluator call recorded. -/
def blankOpts : InternalOptions :=
  ⟨"Windows Debugger", Value.str "ready", fun _ => Except.error "must not run"⟩

theorem blank_line_returns_default_witness :
    createEvalFunctionTr blankOpts "   " = (Except.ok (Value.str "ready"), []) ∧
    clientLoop blankOpts ["   "] = ["ready", "> "] := by
  have h := blank_line_returns_default blankOpts "   " [] (by decide)
  exact ⟨h.1, by rw [h.2]; rfl⟩

/-- C3: a non-blank line invokes the configured evaluator exactly once, with
the original untrimmed line as its argument, and the returned value is
formatted and written back to the client. -/
theorem nonblank_line_invokes_evaluator_once (opts : InternalOptions)
    (command : String) (v : Value) (rest : List String)
    (hnb : jsTrim command ≠ "") (hok : opts.eval command = Except.ok v) :
    createEvalFunctionTr opts command = (opts.eval command, [command]) ∧
    clientLoop opts (command :: rest) =
      FormatOutput v :: promptMarker :: clientLoop opts rest := by
  constructor
  · simp [createEvalFunctionTr, hnb]
  · simp [clientLoop, handleLine, hnb, hok]

/-- Concrete run of C3: the evaluator appends an exclamation mark; the command
"  hello " is passed through untrimmed even though the blank check trims. -/
def echoOpts : InternalOptions :=
  ⟨"Windows Debugger", Value.undef, fun s => Except.ok (Value.str (s ++ "!"))⟩

theorem nonblank_line_invokes_evaluator_once_witness :
    createEvalFunctionTr echoOpts "  hello " = (echoOpts.eval "  hello ", ["  hello "]) ∧
    clientLoop echoOpts ["  hello "] = ["  hello !", "> "] := by
  have h := nonblank_line_invokes_evaluator_once echoOpts "  hello "
    (Value.str "  hello !") [] (by decide) (by rfl)
  exact ⟨h.1, by rw [h.2]; rfl⟩

/-- The state of one accepted connection, per the session state machine of the
specification: awaiting the authentication token, running the active prompt
loop, or closed. -/
inductive SessionState where
  | awaitingAuth
  | active
  | closed
deriving DecidableEq, Repr

/-- The transcript of the prompt loop started by repl.start in src/index.js:
node writes the configured prompt first, then for every received line the
written result (the configured writer on success, the error rendering on
failure) followed by the next prompt.  The writer is the collaborator passed
as the writer option. -/
def replTranscript (writer : Value → String) (opts : InternalOptions)
    (lines : List String) : List String :=
  promptMarker :: lines.flatMap (fun l =>
    [match createEvalFunction opts l with
      | Except.ok v => writer v
      | Except.error m => "Uncaught " ++ m, promptMarker])

/-- Embeds the connection handler of src/index.js lines 13 to 31.  The socket
registers a once listener for data, so exactly the first data event is
examined: when its trimmed text differs from the configured password the
socket is destroyed with nothing ever written, otherwise repl.start is invoked
on the socket and the prompt loop consumes the remaining events.  Returns the
resulting session state and everything written to the socket. -/
def handleSocket (writer : Value → String) (password : String)
    (opts : InternalOptions) : List String → SessionState × List String
  | [] => (SessionState.awaitingAuth, [])
  | d :: rest =>
    if jsTrim d ≠ password then (SessionState.closed, [])
    else (SessionState.active, replTranscript writer opts rest)

/-- C4: a first data event whose trimmed text differs from the configured
secret closes the connection immediately, nothing (in particular no prompt
marker) is ever written on it, and whatever later events arrive, the secret
among them, the session stays closed: at most one authentication attempt. -/
theorem auth_mismatch_closes (writer : Value → String) (password : String)
    (opts : InternalOptions) (d : String) (hne : jsTrim d ≠ password) :
    ∀ rest : List String,
      handleSocket writer password opts (d :: rest) = (SessionState.closed, []) ∧
      promptMarker ∉ (handleSocket writer password opts (d :: rest)).snd := by
  intro rest
  constructor
  · simp [handleSocket, hne]
  · simp [handleSocket, hne]

/-- Concrete run of C4: secret "xyz", the client sends "wrong" and then even
the correct secret; the socket is destroyed with no output. -/
theorem auth_mismatch_closes_witness :
    handleSocket FormatOutput "xyz" blankOpts ["wrong", "xyz"] =
      (SessionState.closed, []) :=
  (auth_mismatch_closes FormatOutput "xyz" blankOpts "wrong" (by decide) ["xyz"]).1

/-- C5: a first data event whose trimmed text equals the configured secret
moves the session to the active prompt loop: repl.start runs on the socket,
and the server sends nothing beyond the prompt loop itself, whose first write
is the prompt marker. -/
theorem auth_match_starts_repl (writer : Value → String) (password : String)
    (opts : InternalOptions) (d : String) (rest : List String)
    (heq : jsTrim d = password) :
    handleSocket writer password opts (d :: rest) =
      (SessionState.active, replTranscript writer opts rest) ∧
    (handleSocket writer password opts (d :: rest)).snd.head? =
      some promptMarker := by
  constructor
  · simp [handleSocket, heq]
  · simp [handleSocket, heq, replTranscript]

/-- Concrete run of C5: secret "xyz", the client sends exactly the secret; the
session is active and the first byte sequence written is the prompt marker. -/
theorem auth_match_starts_repl_witness :
    handleSocket FormatOutput "xyz" blankOpts ["xyz"] =
      (SessionState.active, ["> "]) := by
  have h := auth_match_starts_repl FormatOutput "xyz" blankOpts "xyz" []
    (by decide)
  rw [h.1]
  rfl

/-- An externally observable effect of the launch sequence. -/
inductive LaunchEffect where
  | assertionLog (msg : String)
  | errorLog (msg : String)
  | listenerStarted
  | terminalSpawned
deriving DecidableEq, Repr

/-- Embeds the launch sequence of src/index.js lines 10 to 58 as the list of
its effects as a function of process.platform: console.assert logs its message
when the platform is not win32 but does not throw in Node, so execution
continues unconditionally into net.createServer, server.listen and the
PowerShell spawn in the listen callback. -/
def jsLaunch (platform : String) : List LaunchEffect :=
  (if platform = "win32" then []
   else [LaunchEffect.assertionLog "This module only works on Windows."]) ++
  [LaunchEffect.listenerStarted, LaunchEffect.terminalSpawned]

/-- Embeds PlatformValidator.validateWindows from src/src/index.ts lines 175
to 179 and PlatformValidator.ValidateWindows from src/src/PlatformValidator.cs:
a platform other than win32 throws. -/
def validateWindows (platform : String) : Except String Unit :=
  if platform = "win32" then Except.ok ()
  else Except.error "This module only works on Windows."

/-- Embeds the launch flow of windowsDebugger in src/src/index.ts lines 234 to
261: validation runs first inside the try block; a validation failure is
logged and rethrown into the suppressing domain, and neither the REPL server
nor the PowerShell process is ever created. -/
def tsLaunch (platform : String) : List LaunchEffect :=
  match validateWindows platform with
  | Except.error m => [LaunchEffect.errorLog ("Failed to start Windows debugger: " ++ m)]
  | Except.ok _ => [LaunchEffect.listenerStarted, LaunchEffect.terminalSpawned]

/-- C6: on a non-Windows platform the reference entry point src/index.js does
not abort: console.assert merely logs, the listener is still started and the
terminal is still spawned, contradicting the claimed abort-before-allocation;
the TypeScript port does abort as claimed, allocating nothing. -/
theorem jsLaunch_not_aborted_on_linux :
    jsLaunch "linux" =
      [LaunchEffect.assertionLog "This module only works on Windows.",
       LaunchEffect.listenerStarted, LaunchEffect.terminalSpawned] ∧
    LaunchEffect.listenerStarted ∈ jsLaunch "linux" ∧
    LaunchEffect.terminalSpawned ∈ jsLaunch "linux" ∧
    tsLaunch "linux" =
      [LaunchEffect.errorLog
        "Failed to start Windows debugger: This module only works on Windows."] ∧
    LaunchEffect.listenerStarted ∉ tsLaunch "linux" := by
  refine ⟨rfl, ?_, ?_, rfl, ?_⟩ <;> decide

/-- Embeds the server field of ReplServerManager from src/src/index.ts line
81: a handle on the running net server (carrying its bound port) or null. -/
structure ReplServerManager where
  server : Option Nat

/-- Embeds ReplServerManager.close from src/src/index.ts lines 160 to 165 and
Dispose from src/src/ReplServerManager.cs lines 121 to 125: when a server is
present it is closed and the field nulled, otherwise nothing happens; the
returned flag records whether a close action was performed.  The function is
total: no branch can raise. -/
def ReplServerManager.close (m : ReplServerManager) : ReplServerManager × Bool :=
  match m.server with
  | some _ => (⟨none⟩, true)
  | none => (⟨none⟩, false)

/-- C9: stopping the listener is idempotent: a second close after a first one
performs no action and leaves the state unchanged, and a close before start
(server still null) also performs no action; no call raises. -/
theorem close_idempotent (m : ReplServerManager) :
    (ReplServerManager.close (ReplServerManager.close m).fst).snd = false ∧
    (ReplServerManager.close (ReplServerManager.close m).fst).fst =
      (ReplServerManager.close m).fst ∧
    ReplServerManager.close ⟨none⟩ = (⟨none⟩, false) := by
  cases m with
  | mk server =>
    cases server <;> exact ⟨rfl, rfl, rfl⟩

/-- The single-quote character, the one PowerShell escaping cares about. -/
def squote : Char := Char.ofNat 39

/-- Embeds escapePowerShellString from src/src/index.ts lines 43 to 45 (and
the identical title.replace in src/index.js line 38 and EscapePowerShellString
in the C# command builder): every single quote is replaced by two single
quotes; a global regex replace is a character-wise map. -/
def escapePowerShellChars : List Char → List Char
  | [] => []
  | c :: cs =>
    if c = squote then squote :: squote :: escapePowerShellChars cs
    else c :: escapePowerShellChars cs

/-- String-level form of the escaping used by the command builder. -/
def escapePowerShellString (s : String) : String := ⟨escapePowerShellChars s.toList⟩

/-- The unescaping the terminal itself performs inside a single-quoted
PowerShell string: scanning left to right, a doubled single quote denotes one
literal single quote.  This is the collaborator behavior the round-trip
property of the specification composes with. -/
def powershellUnescapeChars : List Char → List Char
  | [] => []
  | [c] => [c]
  | c1 :: c2 :: rest =>
    if c1 = squote ∧ c2 = squote then squote :: powershellUnescapeChars rest
    else c1 :: powershellUnescapeChars (c2 :: rest)

/-- String-level form of the terminal unescaping. -/
def powershellUnescape (s : String) : String := ⟨powershellUnescapeChars s.toList⟩

/-- Checks, scanning left to right, that every single quote is immediately
part of a doubled pair: no unescaped single quote remains. -/
def pairedQuotes : List Char → Bool
  | [] => true
  | [c] => c != squote
  | c1 :: c2 :: rest =>
    if c1 = squote then (c2 == squote) && pairedQuotes rest
    else pairedQuotes (c2 :: rest)

/-- Escaping produces the empty output only on the empty input. -/
theorem escape_chars_nil_iff (l : List Char) :
    escapePowerShellChars l = [] ↔ l = [] := by
  cases l with
  | nil => simp [escapePowerShellChars]
  | cons c cs =>
    simp only [escapePowerShellChars]
    split <;> simp

/-- The terminal unescaping inverts the escaping, character-wise. -/
theorem unescape_escape_chars (l : List Char) :
    powershellUnescapeChars (escapePowerShellChars l) = l := by
  induction l with
  | nil => rfl
  | cons c cs ih =>
    by_cases hc : c = squote
    · subst hc
      rw [escapePowerShellChars, if_pos rfl, powershellUnescapeChars,
        if_pos ⟨rfl, rfl⟩, ih]
    · rw [escapePowerShellChars, if_neg hc]
      cases he : escapePowerShellChars cs with
      | nil =>
        have hcs : cs = [] := (escape_chars_nil_iff cs).mp he
        subst hcs
        rfl
      | cons e es =>
        rw [powershellUnescapeChars, if_neg (fun h => hc h.1), ← he, ih]

/-- Escaping doubles the number of single quotes, character-wise. -/
theorem count_escape_chars (l : List Char) :
    (escapePowerShellChars l).count squote = 2 * l.count squote := by
  induction l with
  | nil => rfl
  | cons c cs ih =>
    by_cases hc : c = squote
    · subst hc
      rw [escapePowerShellChars, if_pos rfl]
      simp only [List.count_cons, ih]
      simp
      omega
    · rw [escapePowerShellChars, if_neg hc]
      simp only [List.count_cons, ih]
      simp [hc]

/-- Escaped output never contains an unescaped single quote, character-wise. -/
theorem paired_escape_chars (l : List Char) :
    pairedQuotes (escapePowerShellChars l) = true := by
  induction l with
  | nil => rfl
  | cons c cs ih =>
    by_cases hc : c = squote
    · subst hc
      rw [escapePowerShellChars, if_pos rfl, pairedQuotes, if_pos rfl]
      simp [ih]
    · rw [escapePowerShellChars, if_neg hc]
      cases he : escapePowerShellChars cs with
      | nil => simp [pairedQuotes, hc]
      | cons e es =>
        rw [pairedQuotes, if_neg hc, ← he]
        exact ih

/-- C8: for every configured title the generated escaping doubles each single
quote, leaves no unescaped single quote, and composing it with the terminal
unescaping restores the original title. -/
theorem escapePowerShellString_roundtrip (title : String) :
    (escapePowerShellString title).toList.count squote =
      2 * title.toList.count squote ∧
    pairedQuotes (escapePowerShellString title).toList = true ∧
    powershellUnescape (escapePowerShellString title) = title := by
  refine ⟨count_escape_chars title.toList, paired_escape_chars title.toList, ?_⟩
  show (⟨powershellUnescapeChars (escapePowerShellChars title.toList)⟩ : String) = title
  rw [unescape_escape_chars]
  rfl

/-- A value as supplied by a caller in a dynamically typed options object:
absent (undefined), explicitly null, or an actual value. -/
inductive Supplied (α : Type) where
  | undef
  | nullv
  | val (a : α)

/-- Embeds the TypeScript nullish coalescing operator: null and undefined both
select the right operand, anything else is kept. -/
def nullishCoalesce {α : Type} (x : Supplied α) (d : α) : α :=
  match x with
  | Supplied.undef => d
  | Supplied.nullv => d
  | Supplied.val a => a

/-- Embeds a JavaScript destructuring default as in src/index.js line 10: it
applies only when the supplied value is undefined; an explicit null is kept. -/
def undefDefault {α : Type} (x : Supplied α) (d : α) : Supplied α :=
  match x with
  | Supplied.undef => Supplied.val d
  | x => x

/-- Embeds WindowsDebuggerOptions from src/src/index.ts lines 10 to 17: every
field is optional and may also be explicitly null at runtime. -/
structure WindowsDebuggerOptions where
  title : Supplied String
  default : Supplied Value
  eval : Supplied EvalFn

/-- The native eval of the host language, the built-in default evaluator.  It
is an injected capability external to this subsystem; only its identity
matters for the defaulting logic. -/
def hostEval : EvalFn := fun s => Except.ok (Value.other (some s))

/-- Embeds DEFAULT_OPTIONS from src/src/index.ts lines 202 to 206: title
"Windows Debugger", default value undefined, eval the global eval. -/
def DEFAULT_OPTIONS : InternalOptions := ⟨"Windows Debugger", Value.undef, hostEval⟩

/-- Embeds applyDefaults from src/src/index.ts lines 211 to 217: each field is
the supplied value nullish-coalesced with the built-in default. -/
def applyDefaults (options : WindowsDebuggerOptions) : InternalOptions :=
  ⟨nullishCoalesce options.title DEFAULT_OPTIONS.title,
   nullishCoalesce options.default DEFAULT_OPTIONS.default,
   nullishCoalesce options.eval DEFAULT_OPTIONS.eval⟩

/-- The parameters bound by the destructuring of src/index.js line 10. -/
structure JsBoundParams where
  title : Supplied String
  defaultValue : Supplied Value
  evalFunction : Supplied EvalFn

/-- Embeds the parameter destructuring of the reference entry point
src/index.js line 10: title and eval get destructuring defaults (applied only
to undefined), the default field is bound with no default at all. -/
def jsDestructure (o : WindowsDebuggerOptions) : JsBoundParams :=
  ⟨undefDefault o.title "Windows Debugger",
   o.default,
   undefDefault o.eval hostEval⟩

/-- C10: applyDefaults maps a null or undefined field to the built-in default
(title "Windows Debugger", default value undefined, eval the global eval) and
keeps any other supplied value, so explicit null behaves like omission; the
reference destructuring instead substitutes only for undefined and preserves
an explicit null. -/
theorem applyDefaults_nullish (t : String) (d : Value) (f : EvalFn)
    (o : WindowsDebuggerOptions) :
    (applyDefaults { o with title := Supplied.val t }).title = t ∧
    (applyDefaults { o with title := Supplied.nullv }).title = "Windows Debugger" ∧
    (applyDefaults { o with title := Supplied.undef }).title = "Windows Debugger" ∧
    (applyDefaults { o with default := Supplied.val d }).default = d ∧
    (applyDefaults { o with default := Supplied.nullv }).default = Value.undef ∧
    (applyDefaults { o with default := Supplied.undef }).default = Value.undef ∧
    (applyDefaults { o with eval := Supplied.val f }).eval = f ∧
    (applyDefaults { o with eval := Supplied.nullv }).eval = hostEval ∧
    (applyDefaults { o with eval := Supplied.undef }).eval = hostEval ∧
    (jsDestructure { o with title := Supplied.val t }).title = Supplied.val t ∧
    (jsDestructure { o with title := Supplied.nullv }).title = Supplied.nullv ∧
    (jsDestructure { o with title := Supplied.undef }).title =
      Supplied.val "Windows Debugger" :=
  ⟨rfl, rfl, rfl, rfl, rfl, rfl, rfl, rfl, rfl, rfl, rfl, rfl⟩

/-- C7: the output formatter is total and never fails: null and the absent
value map to the stable literal "null", a string is passed through verbatim,
and every other value maps to its ToString serialization with the "null"
fallback even when ToString itself yields nothing. -/
theorem FormatOutput_total :
    (∀ s : String, FormatOutput (Value.str s) = s) ∧
    FormatOutput Value.nullv = "null" ∧
    FormatOutput Value.undef = "null" ∧
    (∀ r : String, FormatOutput (Value.other (some r)) = r) ∧
    FormatOutput (Value.other none) = "null" :=
  ⟨fun _ => rfl, rfl, rfl, fun _ => rfl, rfl⟩
